import Mathlib

/-!
Verification of the retail sales analyzer (src/retail3.py).

The program is a single class `RetailAnalyzer` holding a pandas DataFrame
`self.df` and a dict `self.metrics`, with methods `load_data`,
`calculate_metrics`, `display_summary`, `filter_data`, plus an interactive
menu loop `main`.  We embed the data pipeline shallowly:

* a CSV cell is an `Option String` (`none` models a null/NaN cell);
* a row is an association list from column name to cell;
* `pandas.to_datetime` on ISO `YYYY-MM-DD` strings is modelled by
  `parseDate`, returning the key `year*10000 + month*100 + day : Nat`
  (chronological order coincides with numeric order on such keys);
* `pandas.to_numeric` on plain decimal literals is modelled by `parseNum`
  into `Rat`;
* the DataFrame after loading is a `List Record`; `Record.total` is an
  `Option Rat` (a `none` total models a supplied `Total Sales` cell that
  is null or non-numeric, which pandas keeps as NaN/object);
* dict results of `calculate_metrics` are a `Snapshot`; the empty dict is
  `Snapshot.empty`;
* an uncaught pandas exception is `FilterResult.raised` and, at the menu
  loop, `StepOutcome.crashed`.
-/

/-- Split a list of characters at every occurrence of the separator `c`
(the pieces do not contain `c`).  Used to model string splitting for the
date parser. -/
def splitCh (c : Char) : List Char → List (List Char)
  | [] => [[]]
  | a :: rest =>
    let r := splitCh c rest
    if a = c then [] :: r
    else
      match r with
      | [] => [[a]]
      | g :: gs => (a :: g) :: gs

/-- Accumulator loop for `digitsVal`. -/
def digitsGo : List Char → Nat → Option Nat
  | [], acc => some acc
  | c :: rest, acc =>
      if c.isDigit then digitsGo rest (acc * 10 + (c.toNat - 48)) else none

/-- Value of a non-empty all-digit character list, `none` otherwise. -/
def digitsVal : List Char → Option Nat
  | [] => none
  | cs => digitsGo cs 0

/-- Models `pandas.to_numeric` on plain decimal literals: an optional
leading minus sign, a digit string, and an optional fractional part.
Unparseable input yields `none` (the NaN marker of
`to_numeric(..., errors="coerce")`, src/retail3.py lines 39-40). -/
def parseNum (s : String) : Option Rat :=
  match s.toList with
  | [] => none
  | cs =>
    let p := match cs with
      | '-' :: rest => (true, rest)
      | _ => (false, cs)
    match splitCh '.' p.2 with
    | [ip] =>
      (digitsVal ip).map (fun n => if p.1 then mkRat (-(n : Int)) 1 else mkRat n 1)
    | [ip, fp] =>
      match digitsVal ip, digitsVal fp with
      | some n, some f =>
        let m : Int := n * 10 ^ fp.length + f
        some (if p.1 then mkRat (-m) (10 ^ fp.length) else mkRat m (10 ^ fp.length))
      | _, _ => none
    | _ => none

/-- Models `pandas.to_datetime(..., errors="coerce")` on ISO `YYYY-MM-DD`
strings (src/retail3.py line 38): the result is the sortable key
`year*10000 + month*100 + day`; anything else coerces to `none` (NaT). -/
def parseDate (s : String) : Option Nat :=
  match splitCh '-' s.toList with
  | [ys, ms, ds] =>
    match digitsVal ys, digitsVal ms, digitsVal ds with
    | some y, some m, some d =>
      if 1 ≤ m ∧ m ≤ 12 ∧ 1 ≤ d ∧ d ≤ 31 then some (y * 10000 + m * 100 + d) else none
    | _, _, _ => none
  | _ => none

/-- Case-insensitive string equality, modelling Python's
`a.lower() == b.lower()` (src/retail3.py line 92). -/
def lowerEq (a b : String) : Bool :=
  (a.toList.map Char.toLower) == (b.toList.map Char.toLower)

/-- One validated sales record: a row of the analyzer's DataFrame after
`load_data` finished (src/retail3.py lines 34-47).  `date` is the sortable
key produced by `parseDate`.  `total` is the `Total Sales` cell: derived
as `price * quantity` when the source table had no such column, otherwise
whatever the supplied cell held (`none` for a null or non-numeric cell). -/
structure Record where
  date : Nat
  product : String
  category : String
  price : Rat
  quantity : Rat
  total : Option Rat
deriving DecidableEq

/-- The dict built by `calculate_metrics` (src/retail3.py lines 62-66):
either the empty dict or the three-entry mapping with keys
`Total Sales`, `Average Sale Value`, `Most Popular Product`. -/
inductive Snapshot where
  | empty : Snapshot
  | snap (totalSales : Option Rat) (averageSaleValue : Option Rat)
      (mostPopularProduct : Option String) : Snapshot
deriving DecidableEq

/-- The mutable session object: `self.df` and `self.metrics`
(src/retail3.py lines 8-11). -/
structure RetailAnalyzer where
  df : List Record
  metrics : Snapshot
deriving DecidableEq

/-- A raw CSV row as read by `pandas.read_csv`: column name to cell,
`none` modelling a null/NaN cell. -/
abbrev RawRow := List (String × Option String)

/-- Cell of a raw row under a column name (`none` when the column is
absent from the row or the cell is null). -/
def getCell (r : RawRow) (c : String) : Option String :=
  (r.lookup c).join

/-- A raw CSV table as read by `pandas.read_csv`: a header and rows. -/
structure RawTable where
  header : List String
  rows : List RawRow

/-- The required columns of `load_data` (src/retail3.py line 27). -/
def requiredColumns : List String :=
  ["Date", "Product", "Category", "Price", "Quantity Sold"]

/-- Row-wise content of the cleaning pipeline of `load_data`
(src/retail3.py lines 34-47): the row is dropped (`none`) when any of the
five required cells is null (line 35) or when `Date`, `Price` or
`Quantity Sold` fails coercion (lines 38-43); otherwise the typed record
is kept, with `Total Sales` derived as `Price * Quantity Sold` exactly
when the source header has no `Total Sales` column (lines 46-47). -/
def parseRow (hdr : List String) (r : RawRow) : Option Record :=
  match getCell r "Date", getCell r "Product", getCell r "Category",
        getCell r "Price", getCell r "Quantity Sold" with
  | some ds, some ps, some cs, some prs, some qs =>
    match parseDate ds, parseNum prs, parseNum qs with
    | some d, some pr, some q =>
      some { date := d, product := ps, category := cs, price := pr, quantity := q,
             total := if "Total Sales" ∈ hdr then (getCell r "Total Sales").bind parseNum
                      else some (pr * q) }
    | _, _, _ => none
  | _, _, _, _, _ => none

/-- `RetailAnalyzer.load_data` (src/retail3.py lines 13-50).  `fileExists`
models `os.path.exists(file_path)` and `isCsv` models
`file_path.endswith(".csv")`; `tbl` is the table `pandas.read_csv` would
produce.  When the path check fails the method returns `False` without
touching `self.df` (lines 19-21).  When a required column is missing it
prints an error, resets `self.df` to an empty frame and returns `False`
(lines 27-32).  Otherwise `self.df` becomes the cleaned rows and the
method returns `True` (lines 34-50). -/
def load_data (fileExists isCsv : Bool) (tbl : RawTable) (a : RetailAnalyzer) :
    RetailAnalyzer × Bool :=
  if !fileExists || !isCsv then (a, false)
  else
    let missing := requiredColumns.filter (fun c => !(tbl.header.contains c))
    if missing = [] then
      ({ a with df := tbl.rows.filterMap (parseRow tbl.header) }, true)
    else
      ({ a with df := [] }, false)

/-- Models `np.sum` over the `Total Sales` column (src/retail3.py
line 58): `none` models the NaN/exceptional outcome when some total is
not a number, and propagates like NaN does. -/
def np_sum : List Record → Option Rat
  | [] => some 0
  | r :: l =>
    match r.total, np_sum l with
    | some q, some s => some (q + s)
    | _, _ => none

/-- Models `np.mean` over the `Total Sales` column (src/retail3.py
line 59): the sum divided by the number of rows. -/
def np_mean (l : List Record) : Option Rat :=
  (np_sum l).map (fun q => q / (l.length : Rat))

/-- Sum of `Quantity Sold` over the rows of a given product: the entry of
`df.groupby("Product")["Quantity Sold"].sum()` at that product
(src/retail3.py line 60). -/
def qtySum (l : List Record) (p : String) : Rat :=
  ((l.filter (fun r => r.product == p)).map (fun r => r.quantity)).sum

/-- Lexicographic order on character lists by code point, modelling
Python/pandas string ordering of group keys. -/
def chLe : List Char → List Char → Bool
  | [], _ => true
  | _ :: _, [] => false
  | a :: as, b :: bs =>
    if a.toNat < b.toNat then true
    else if b.toNat < a.toNat then false
    else chLe as bs

/-- String comparison underlying the sorted group-key order. -/
def strLe (a b : String) : Bool :=
  chLe a.toList b.toList

/-- Insert a string into an ascending list, before the first element it
does not exceed. -/
def insertSorted (x : String) : List String → List String
  | [] => [x]
  | y :: ys => if strLe x y then x :: y :: ys else y :: insertSorted x ys

/-- Ascending insertion sort of a list of strings. -/
def sortKeys (l : List String) : List String :=
  l.foldr insertSorted []

/-- Removes duplicates keeping first occurrences, with an explicit list of
keys already seen. -/
def dedupGo (seen : List String) : List String → List String
  | [] => []
  | x :: xs => if x ∈ seen then dedupGo seen xs else x :: dedupGo (x :: seen) xs

/-- Removes duplicates keeping first occurrences. -/
def dedupKeys (l : List String) : List String :=
  dedupGo [] l

/-- The group keys of `df.groupby("Product")` in the order pandas uses
(`sort=True`, the default): the distinct product names in ascending
order (src/retail3.py line 60). -/
def groupOrder (l : List Record) : List String :=
  sortKeys (dedupKeys (l.map (fun r => r.product)))

/-- Scanning loop of `Series.idxmax`: keeps the current best and replaces
it only on a strictly larger value, so the result is the first index
attaining the maximum. -/
def idxmaxGo (f : String → Rat) (best : String) : List String → String
  | [] => best
  | k :: ks => idxmaxGo f (if f best < f k then k else best) ks

/-- Models `df.groupby("Product")["Quantity Sold"].sum().idxmax()`
(src/retail3.py line 60): the first product, in the sorted group-key
order, whose quantity sum attains the maximum.  `none` on an empty frame
(where pandas would raise; `calculate_metrics` guards this). -/
def most_popular_product (l : List Record) : Option String :=
  match groupOrder l with
  | [] => none
  | k :: ks => some (idxmaxGo (qtySum l) k ks)

/-- `RetailAnalyzer.calculate_metrics` (src/retail3.py lines 52-67): on an
empty frame it prints a message and returns the empty dict, leaving
`self.metrics` untouched; otherwise it stores and returns the three-entry
snapshot. -/
def calculate_metrics (a : RetailAnalyzer) : RetailAnalyzer × Snapshot :=
  if a.df.isEmpty then (a, Snapshot.empty)
  else
    let s := Snapshot.snap (np_sum a.df) (np_mean a.df) (most_popular_product a.df)
    ({ a with metrics := s }, s)

/-- `RetailAnalyzer.display_summary` (src/retail3.py lines 69-82): on an
empty frame it prints a message and displays nothing; otherwise it
recomputes the metrics only when `self.metrics` is empty, then displays
`self.metrics`.  The second component is the snapshot displayed. -/
def display_summary (a : RetailAnalyzer) : RetailAnalyzer × Option Snapshot :=
  if a.df.isEmpty then (a, none)
  else if a.metrics = Snapshot.empty then
    let p := calculate_metrics a
    (p.1, some p.1.metrics)
  else (a, some a.metrics)

/-- Result of `filter_data`: a returned frame, or an uncaught pandas
exception (`raised`). -/
inductive FilterResult where
  | ok (rows : List Record) : FilterResult
  | raised : FilterResult
deriving DecidableEq

/-- The category step of `filter_data` (src/retail3.py lines 91-92):
`if category:` is Python truthiness, so `None` and the empty string both
skip the filter; otherwise rows are kept on case-insensitive equality. -/
def applyCat (df : List Record) (cat : Option String) : List Record :=
  match cat with
  | none => df
  | some c => if c = "" then df else df.filter (fun r => lowerEq r.category c)

/-- The start-date step of `filter_data` (src/retail3.py lines 93-94):
skipped for `None` or the empty string (truthiness); an unparseable date
string makes `pd.to_datetime` raise; otherwise rows are kept when their
date is at least the bound. -/
def applyStart (df : List Record) (sd : Option String) : FilterResult :=
  match sd with
  | none => .ok df
  | some s =>
    if s = "" then .ok df
    else
      match parseDate s with
      | some lo => .ok (df.filter (fun r => lo ≤ r.date))
      | none => .raised

/-- The end-date step of `filter_data` (src/retail3.py lines 95-96),
symmetric to `applyStart` with an upper bound. -/
def applyEnd (df : List Record) (ed : Option String) : FilterResult :=
  match ed with
  | none => .ok df
  | some s =>
    if s = "" then .ok df
    else
      match parseDate s with
      | some hi => .ok (df.filter (fun r => r.date ≤ hi))
      | none => .raised

/-- `RetailAnalyzer.filter_data` (src/retail3.py lines 84-98): an empty
frame returns empty immediately; otherwise the category, start-date and
end-date steps are applied in order, the first raising step aborting the
call. -/
def filter_data (df : List Record) (cat sd ed : Option String) : FilterResult :=
  if df.isEmpty then .ok []
  else
    match applyStart (applyCat df cat) sd with
    | .raised => .raised
    | .ok d2 =>
      match applyEnd d2 ed with
      | .raised => .raised
      | .ok d3 => .ok d3

/-- Category predicate as the spec words it, amended for truthiness: an
omitted or empty-string category imposes no constraint, otherwise
case-insensitive exact equality. -/
def passCat (cat : Option String) (r : Record) : Bool :=
  match cat with
  | none => true
  | some c => c == "" || lowerEq r.category c

/-- Reading of an optional date-bound argument: `some none` for no
constraint (omitted or empty string), `some (some d)` for a parsed bound,
`none` for an unparseable date string (error). -/
def boundOf (x : Option String) : Option (Option Nat) :=
  match x with
  | none => some none
  | some s => if s = "" then some none else (parseDate s).map some

/-- Inclusive lower-bound predicate on the record date. -/
def passLow (lo : Option Nat) (r : Record) : Bool :=
  match lo with
  | none => true
  | some d => decide (d ≤ r.date)

/-- Inclusive upper-bound predicate on the record date. -/
def passHigh (hi : Option Nat) (r : Record) : Bool :=
  match hi with
  | none => true
  | some d => decide (r.date ≤ d)

/-- The Filter Engine contract as the spec words it (spec section 4.3),
amended for truthiness: one pass keeping exactly the records satisfying
all supplied predicates, in order; an empty dataset returns empty without
evaluating predicates; an unparseable non-empty date bound is an error. -/
def filter_spec (df : List Record) (cat sd ed : Option String) : FilterResult :=
  if df.isEmpty then .ok []
  else
    match boundOf sd, boundOf ed with
    | some lo, some hi =>
      .ok (df.filter (fun r => passCat cat r && passLow lo r && passHigh hi r))
    | _, _ => .raised

/-- Whether an optional date-bound argument is a non-empty string that
fails to parse (the inputs on which `pd.to_datetime` raises). -/
def badBound (x : Option String) : Bool :=
  match x with
  | none => false
  | some s => if s = "" then false else (parseDate s).isNone

/-- Outcome of one iteration of the menu loop: the loop continues, or the
process dies on an uncaught exception. -/
inductive StepOutcome where
  | continued : StepOutcome
  | crashed : StepOutcome
deriving DecidableEq

/-- Menu choice 3 of `main` (src/retail3.py lines 166-184): with an empty
frame it prints a message and continues; otherwise it calls `filter_data`
and prints the result.  `main` has no exception handler, so a raising
`filter_data` call kills the process. -/
def menu_filter_step (a : RetailAnalyzer) (cat sd ed : Option String) :
    RetailAnalyzer × StepOutcome :=
  if a.df.isEmpty then (a, .continued)
  else
    match filter_data a.df cat sd ed with
    | .ok _ => (a, .continued)
    | .raised => (a, .crashed)

/-- First row of the spec's worked example: (P1, Food, 2024-01-01, 10, 3)
with derived total 30. -/
def exR1 : Record :=
  { date := 20240101, product := "P1", category := "Food",
    price := 10, quantity := 3, total := some 30 }

/-- Second row of the spec's worked example: (P2, Food, 2024-02-01, 5, 10)
with derived total 50. -/
def exR2 : Record :=
  { date := 20240201, product := "P2", category := "Food",
    price := 5, quantity := 10, total := some 50 }

/-- The spec's worked example dataset. -/
def exampleDf : List Record := [exR1, exR2]

/-- A fresh session holding the worked example dataset. -/
def exampleAnalyzer : RetailAnalyzer :=
  { df := exampleDf, metrics := Snapshot.empty }

/-- The snapshot the spec's worked example predicts. -/
def exampleSnap : Snapshot :=
  Snapshot.snap (some 80) (some 40) (some "P2")

/-- A session whose dataset was emptied while a previously computed
snapshot is still stored. -/
def staleAnalyzer : RetailAnalyzer :=
  { df := [], metrics := exampleSnap }

/-- A session holding one record and a stored snapshot. -/
def loadedAnalyzer : RetailAnalyzer :=
  { df := [exR1], metrics := exampleSnap }

/-- A session with nothing loaded yet. -/
def emptyAnalyzer : RetailAnalyzer :=
  { df := [], metrics := Snapshot.empty }

/-- A raw table with the required header and four rows: a fully valid one,
one with a null price, one with a non-numeric price, one with an
unparseable date.  Only the first survives cleaning. -/
def exTable : RawTable :=
  { header := ["Date", "Product", "Category", "Price", "Quantity Sold"],
    rows :=
      [[("Date", some "2024-01-01"), ("Product", some "P1"), ("Category", some "Food"),
        ("Price", some "10"), ("Quantity Sold", some "3")],
       [("Date", some "2024-01-02"), ("Product", some "P2"), ("Category", some "Food"),
        ("Price", none), ("Quantity Sold", some "4")],
       [("Date", some "2024-01-03"), ("Product", some "P3"), ("Category", some "Food"),
        ("Price", some "abc"), ("Quantity Sold", some "5")],
       [("Date", some "not-a-date"), ("Product", some "P4"), ("Category", some "Food"),
        ("Price", some "7"), ("Quantity Sold", some "6")]] }

/-- A raw table whose header lacks the required `Price` column. -/
def tblMissingPrice : RawTable :=
  { header := ["Date", "Product", "Category", "Quantity Sold"],
    rows := [[("Date", some "2024-01-01"), ("Product", some "P1"),
              ("Category", some "Food"), ("Quantity Sold", some "3")]] }

/-- A raw table that supplies a `Total Sales` column and a row with a
negative price and a negative, non-integral quantity. -/
def tblSupplied : RawTable :=
  { header := ["Date", "Product", "Category", "Price", "Quantity Sold", "Total Sales"],
    rows := [[("Date", some "2024-01-01"), ("Product", some "A"), ("Category", some "Food"),
              ("Price", some "-5"), ("Quantity Sold", some "-2.5"),
              ("Total Sales", some "10")]] }

/-- The record `tblSupplied`'s only row cleans to. -/
def recNeg : Record :=
  { date := 20240101, product := "A", category := "Food",
    price := mkRat (-5) 1, quantity := mkRat (-5) 2, total := some (mkRat 10 1) }

/-- The record the first (fully valid) row of `exTable` cleans to; its
total is derived, since `exTable` has no `Total Sales` column. -/
def derivedRec : Record :=
  { date := 20240101, product := "P1", category := "Food",
    price := 10, quantity := 3, total := some ((10 : Rat) * 3) }

/-- The sum of the `total` fields of a list of records (their values under
the default `0`, which is only used when every total is present). -/
def totalsSum (l : List Record) : Rat :=
  (l.map (fun r => r.total.getD 0)).sum

theorem applyCat_eq (df : List Record) (cat : Option String) :
    applyCat df cat = df.filter (passCat cat) := by
  cases cat with
  | none => exact (List.filter_true df).symm
  | some c =>
    by_cases hc : c = ""
    · subst hc
      simp only [applyCat, if_pos rfl]
      exact (List.filter_true df).symm
    · simp only [applyCat, if_neg hc]
      exact List.filter_congr (fun x hx => by simp [passCat, hc])

theorem applyStart_eq (df : List Record) (sd : Option String) :
    applyStart df sd =
      match boundOf sd with
      | some lo => .ok (df.filter (passLow lo))
      | none => .raised := by
  cases sd with
  | none => exact congrArg FilterResult.ok (List.filter_true df).symm
  | some s =>
    by_cases hs : s = ""
    · subst hs
      simp only [applyStart, boundOf, if_pos rfl]
      exact congrArg FilterResult.ok (List.filter_true df).symm
    · cases hp : parseDate s with
      | none => simp [applyStart, boundOf, hs, hp]
      | some lo =>
        simp [applyStart, boundOf, hs, hp]
        rfl

theorem applyEnd_eq (df : List Record) (ed : Option String) :
    applyEnd df ed =
      match boundOf ed with
      | some hi => .ok (df.filter (passHigh hi))
      | none => .raised := by
  cases ed with
  | none => exact congrArg FilterResult.ok (List.filter_true df).symm
  | some s =>
    by_cases hs : s = ""
    · subst hs
      simp only [applyEnd, boundOf, if_pos rfl]
      exact congrArg FilterResult.ok (List.filter_true df).symm
    · cases hp : parseDate s with
      | none => simp [applyEnd, boundOf, hs, hp]
      | some hi =>
        simp [applyEnd, boundOf, hs, hp]
        rfl

theorem filterData_eq_spec (df : List Record) (cat sd ed : Option String) :
    filter_data df cat sd ed = filter_spec df cat sd ed := by
  by_cases hdf : df.isEmpty
  · rw [filter_data, filter_spec, if_pos hdf, if_pos hdf]
  · rw [filter_data, filter_spec, if_neg hdf, if_neg hdf, applyCat_eq, applyStart_eq]
    cases hsd : boundOf sd with
    | none => rfl
    | some lo =>
      simp only
      rw [applyEnd_eq]
      cases hed : boundOf ed with
      | none => rfl
      | some hi =>
        simp only
        refine congrArg FilterResult.ok ?_
        rw [List.filter_filter, List.filter_filter]
        exact List.filter_congr (fun x hx => by
          cases passCat cat x <;> cases passLow lo x <;> cases passHigh hi x <;> rfl)

theorem boundOf_eq_none {x : Option String} (h : badBound x = true) :
    boundOf x = none := by
  cases x with
  | none => simp [badBound] at h
  | some s =>
    by_cases hs : s = ""
    · simp [badBound, hs] at h
    · simp only [badBound, if_neg hs, Option.isNone_iff_eq_none] at h
      simp [boundOf, hs, h]

theorem filterData_raised {df : List Record} (cat : Option String) {sd ed : Option String}
    (hdf : df ≠ []) (hbad : (badBound sd || badBound ed) = true) :
    filter_data df cat sd ed = .raised := by
  rw [filterData_eq_spec, filter_spec,
    if_neg (by simp [List.isEmpty_iff, hdf])]
  rcases Bool.or_eq_true _ _ ▸ hbad with h | h
  · rw [boundOf_eq_none h]
  · rw [boundOf_eq_none h]
    cases boundOf sd <;> rfl

theorem menu_crash {a : RetailAnalyzer} {cat sd ed : Option String}
    (hdf : a.df ≠ []) (hr : filter_data a.df cat sd ed = .raised) :
    menu_filter_step a cat sd ed = (a, .crashed) := by
  rw [menu_filter_step, if_neg (by simp [List.isEmpty_iff, hdf]), hr]

theorem load_badPath (fe csv : Bool) (tbl : RawTable) (a : RetailAnalyzer)
    (h : (fe && csv) = false) : load_data fe csv tbl a = (a, false) := by
  rw [load_data, if_pos (by cases fe <;> cases csv <;> simp_all)]

theorem load_missingCols (tbl : RawTable) (a : RetailAnalyzer)
    (h : ∃ c ∈ requiredColumns, c ∉ tbl.header) :
    load_data true true tbl a = ({ a with df := [] }, false) := by
  obtain ⟨c, hc, hnc⟩ := h
  have hm : requiredColumns.filter (fun c => !(tbl.header.contains c)) ≠ [] := by
    intro hnil
    rw [List.filter_eq_nil_iff] at hnil
    exact hnil c hc (by simpa using hnc)
  simp only [load_data, Bool.not_true, Bool.or_self, Bool.false_or, if_false]
  rw [if_neg hm]
  rfl

theorem load_ok (tbl : RawTable) (a : RetailAnalyzer)
    (h : ∀ c ∈ requiredColumns, c ∈ tbl.header) :
    load_data true true tbl a =
      ({ a with df := tbl.rows.filterMap (parseRow tbl.header) }, true) := by
  have hm : requiredColumns.filter (fun c => !(tbl.header.contains c)) = [] := by
    rw [List.filter_eq_nil_iff]
    intro c hc
    simp [h c hc]
  simp only [load_data, Bool.not_true, Bool.or_self, Bool.false_or, if_false]
  rw [if_pos hm]
  rfl

theorem parseRow_some_iff (hdr : List String) (r : RawRow) :
    (parseRow hdr r).isSome = true ↔
      ((getCell r "Date").isSome = true ∧ (getCell r "Product").isSome = true ∧
       (getCell r "Category").isSome = true ∧ (getCell r "Price").isSome = true ∧
       (getCell r "Quantity Sold").isSome = true ∧
       ((getCell r "Date").bind parseDate).isSome = true ∧
       ((getCell r "Price").bind parseNum).isSome = true ∧
       ((getCell r "Quantity Sold").bind parseNum).isSome = true) := by
  rcases hD : getCell r "Date" with _ | ds <;>
    rcases hP : getCell r "Product" with _ | ps <;>
    rcases hC : getCell r "Category" with _ | cs <;>
    rcases hPr : getCell r "Price" with _ | prs <;>
    rcases hQ : getCell r "Quantity Sold" with _ | qs <;>
    simp [parseRow, hD, hP, hC, hPr, hQ] <;>
    rcases parseDate ds with _ | d <;>
    rcases parseNum prs with _ | pr <;>
    rcases parseNum qs with _ | q <;>
    simp

theorem parseRow_eq_some {hdr : List String} {r : RawRow} {rec : Record}
    (h : parseRow hdr r = some rec) :
    ∃ ds ps cs prs qs d pr q,
      getCell r "Date" = some ds ∧ getCell r "Product" = some ps ∧
      getCell r "Category" = some cs ∧ getCell r "Price" = some prs ∧
      getCell r "Quantity Sold" = some qs ∧
      parseDate ds = some d ∧ parseNum prs = some pr ∧ parseNum qs = some q ∧
      rec = { date := d, product := ps, category := cs, price := pr, quantity := q,
              total := if "Total Sales" ∈ hdr then (getCell r "Total Sales").bind parseNum
                       else some (pr * q) } := by
  rw [parseRow] at h
  rcases hD : getCell r "Date" with _ | ds
  · rw [hD] at h; exact absurd h (by simp)
  rw [hD] at h
  rcases hP : getCell r "Product" with _ | ps
  · rw [hP] at h; exact absurd h (by simp)
  rw [hP] at h
  rcases hC : getCell r "Category" with _ | cs
  · rw [hC] at h; exact absurd h (by simp)
  rw [hC] at h
  rcases hPr : getCell r "Price" with _ | prs
  · rw [hPr] at h; exact absurd h (by simp)
  rw [hPr] at h
  rcases hQ : getCell r "Quantity Sold" with _ | qs
  · rw [hQ] at h; exact absurd h (by simp)
  rw [hQ] at h
  simp only at h
  rcases hd : parseDate ds with _ | d
  · rw [hd] at h; exact absurd h (by simp)
  rw [hd] at h
  rcases hpr : parseNum prs with _ | pr
  · rw [hpr] at h; exact absurd h (by simp)
  rw [hpr] at h
  rcases hq : parseNum qs with _ | q
  · rw [hq] at h; exact absurd h (by simp)
  rw [hq] at h
  simp only at h
  exact ⟨ds, ps, cs, prs, qs, d, pr, q, rfl, rfl, rfl, rfl, rfl, hd, hpr, hq,
    (Option.some.inj h).symm⟩

theorem np_sum_of_isSome {l : List Record} (h : ∀ r ∈ l, r.total.isSome = true) :
    np_sum l = some (totalsSum l) := by
  induction l with
  | nil => simp [np_sum, totalsSum]
  | cons r t ih =>
    obtain ⟨q, hq⟩ := Option.isSome_iff_exists.mp (h r (List.mem_cons_self _ _))
    rw [np_sum, hq, ih (fun x hx => h x (List.mem_cons_of_mem _ hx))]
    simp [totalsSum, hq]

theorem idxmaxGo_split (f : String → Rat) :
    ∀ (ks : List String) (b : String),
      ∃ l1 l2, b :: ks = l1 ++ idxmaxGo f b ks :: l2 ∧
        (∀ q ∈ l1, f q < f (idxmaxGo f b ks)) ∧
        (∀ q ∈ l2, f q ≤ f (idxmaxGo f b ks)) := by
  intro ks
  induction ks with
  | nil =>
    intro b
    exact ⟨[], [], rfl, by simp, by simp⟩
  | cons k ks ih =>
    intro b
    rw [idxmaxGo]
    by_cases h : f b < f k
    · rw [if_pos h]
      obtain ⟨l1, l2, heq, h1, h2⟩ := ih k
      have hbr : f b < f (idxmaxGo f k ks) := by
        cases l1 with
        | nil =>
          simp only [List.nil_append] at heq
          exact (List.cons.injEq _ _ _ _ ▸ heq).1 ▸ h
        | cons a t =>
          have ha : a = k := ((List.cons.injEq _ _ _ _).mp (List.cons_append a t _ ▸ heq)).1.symm
          exact lt_trans h (ha ▸ h1 a (List.mem_cons_self _ _))
      refine ⟨b :: l1, l2, ?_, ?_, h2⟩
      · rw [List.cons_append, ← heq]
      · intro q hq
        rcases List.mem_cons.mp hq with rfl | hq'
        · exact hbr
        · exact h1 q hq'
    · rw [if_neg h]
      push_neg at h
      obtain ⟨l1, l2, heq, h1, h2⟩ := ih b
      cases l1 with
      | nil =>
        simp only [List.nil_append] at heq
        have hb : b = idxmaxGo f b ks := ((List.cons.injEq _ _ _ _).mp heq).1
        have hks : ks = l2 := ((List.cons.injEq _ _ _ _).mp heq).2
        refine ⟨[], k :: l2, ?_, by simp, ?_⟩
        · rw [List.nil_append, ← hb, hks]
        · intro q hq
          rcases List.mem_cons.mp hq with rfl | hq'
          · exact le_trans h (le_of_eq (congrArg f hb))
          · exact h2 q hq'
      | cons a t =>
        rw [List.cons_append] at heq
        have hba : b = a := ((List.cons.injEq _ _ _ _).mp heq).1
        have hks : ks = t ++ idxmaxGo f b ks :: l2 := ((List.cons.injEq _ _ _ _).mp heq).2
        have hfb : f b < f (idxmaxGo f b ks) := hba ▸ h1 a (List.mem_cons_self _ _)
        refine ⟨b :: k :: t, l2, ?_, ?_, h2⟩
        · rw [List.cons_append, List.cons_append, ← hks]
        · intro q hq
          rcases List.mem_cons.mp hq with rfl | hq'
          · exact hfb
          · rcases List.mem_cons.mp hq' with rfl | hq''
            · exact lt_of_le_of_lt h hfb
            · exact h1 q (hba ▸ List.mem_cons_of_mem _ hq'')

theorem mem_insertSorted {a x : String} {l : List String} :
    a ∈ insertSorted x l ↔ a = x ∨ a ∈ l := by
  induction l with
  | nil => simp [insertSorted]
  | cons y ys ih =>
    rw [insertSorted]
    by_cases h : strLe x y
    · rw [if_pos h]
      simp [List.mem_cons]
    · rw [if_neg h]
      simp only [List.mem_cons, ih]
      tauto

theorem mem_sortKeys {a : String} {l : List String} : a ∈ sortKeys l ↔ a ∈ l := by
  induction l with
  | nil => simp [sortKeys]
  | cons x xs ih =>
    show a ∈ insertSorted x (sortKeys xs) ↔ _
    rw [mem_insertSorted, ih]
    simp [List.mem_cons]

theorem mem_dedupGo {a : String} {l seen : List String} :
    a ∈ dedupGo seen l ↔ (a ∈ l ∧ a ∉ seen) := by
  induction l generalizing seen with
  | nil => simp [dedupGo]
  | cons x xs ih =>
    rw [dedupGo]
    by_cases h : x ∈ seen
    · rw [if_pos h, ih]
      constructor
      · rintro ⟨h1, h2⟩
        exact ⟨List.mem_cons_of_mem _ h1, h2⟩
      · rintro ⟨h1, h2⟩
        rcases List.mem_cons.mp h1 with rfl | h1'
        · exact absurd h h2
        · exact ⟨h1', h2⟩
    · rw [if_neg h]
      constructor
      · intro hm
        rcases List.mem_cons.mp hm with rfl | hm'
        · exact ⟨List.mem_cons_self _ _, h⟩
        · obtain ⟨h1, h2⟩ := ih.mp hm'
          exact ⟨List.mem_cons_of_mem _ h1, fun hs => h2 (List.mem_cons_of_mem _ hs)⟩
      · rintro ⟨h1, h2⟩
        by_cases hax : a = x
        · subst hax
          exact List.mem_cons_self _ _
        · rcases List.mem_cons.mp h1 with rfl | h1'
          · exact absurd rfl hax
          · exact List.mem_cons_of_mem _ (ih.mpr ⟨h1', by simp [List.mem_cons, hax, h2]⟩)

theorem mem_groupOrder {p : String} {l : List Record} :
    p ∈ groupOrder l ↔ p ∈ l.map (fun r => r.product) := by
  rw [groupOrder, mem_sortKeys, dedupKeys, mem_dedupGo]
  simp

theorem groupOrder_ne_nil {l : List Record} (h : l ≠ []) : groupOrder l ≠ [] := by
  rcases l with _ | ⟨r, t⟩
  · exact absurd rfl h
  · intro hg
    have hm : r.product ∈ groupOrder (r :: t) := mem_groupOrder.mpr (by simp)
    rw [hg] at hm
    exact absurd hm (List.not_mem_nil _)

theorem calc_metrics_nonempty (a : RetailAnalyzer) (hne : a.df ≠ [])
    (hT : ∀ r ∈ a.df, r.total.isSome = true) :
    ∃ p, most_popular_product a.df = some p ∧
      calculate_metrics a =
        ({ a with metrics := (Snapshot.snap (some (totalsSum a.df))
            (some (totalsSum a.df / (a.df.length : Rat))) (some p)) },
         Snapshot.snap (some (totalsSum a.df))
            (some (totalsSum a.df / (a.df.length : Rat))) (some p)) ∧
      (∀ q ∈ a.df.map (fun r => r.product), qtySum a.df q ≤ qtySum a.df p) ∧
      ∃ l1 l2, groupOrder a.df = l1 ++ p :: l2 ∧
        (∀ q ∈ l1, qtySum a.df q < qtySum a.df p) ∧
        (∀ q ∈ l2, qtySum a.df q ≤ qtySum a.df p) := by
  rcases hgo : groupOrder a.df with _ | ⟨k, ks⟩
  · exact absurd hgo (groupOrder_ne_nil hne)
  have hmp : most_popular_product a.df = some (idxmaxGo (qtySum a.df) k ks) := by
    rw [most_popular_product, hgo]
  obtain ⟨l1, l2, heq, h1, h2⟩ := idxmaxGo_split (qtySum a.df) ks k
  have hsplit : groupOrder a.df = l1 ++ idxmaxGo (qtySum a.df) k ks :: l2 := by
    rw [hgo, heq]
  have hmax : ∀ q ∈ a.df.map (fun r => r.product),
      qtySum a.df q ≤ qtySum a.df (idxmaxGo (qtySum a.df) k ks) := by
    intro q hq
    have hmem : q ∈ groupOrder a.df := mem_groupOrder.mpr hq
    rw [hsplit] at hmem
    rcases List.mem_append.mp hmem with hin | hin
    · exact le_of_lt (h1 q hin)
    · rcases List.mem_cons.mp hin with rfl | hin'
      · exact le_refl _
      · exact h2 q hin'
  have hs : np_sum a.df = some (totalsSum a.df) := np_sum_of_isSome hT
  have hm : np_mean a.df = some (totalsSum a.df / (a.df.length : Rat)) := by
    rw [np_mean, hs]
    rfl
  refine ⟨idxmaxGo (qtySum a.df) k ks, hmp, ?_, hmax, l1, l2, heq, h1, h2⟩
  rw [calculate_metrics, if_neg (by simp [List.isEmpty_iff, hne])]
  rw [hs, hm, hmp]

theorem example_metrics :
    calculate_metrics exampleAnalyzer =
      ({ df := exampleDf, metrics := exampleSnap }, exampleSnap) := by
  have hq1 : qtySum exampleDf "P1" = 3 + 0 := rfl
  have hq2 : qtySum exampleDf "P2" = 10 + 0 := rfl
  have hlt : qtySum exampleDf "P1" < qtySum exampleDf "P2" := by
    rw [hq1, hq2]; norm_num
  have hgo : groupOrder exampleDf = ["P1", "P2"] := by decide
  have hmp : most_popular_product exampleDf = some "P2" := by
    rw [most_popular_product, hgo]
    simp only [idxmaxGo]
    rw [if_pos hlt]
  have hs : np_sum exampleDf = some (30 + (50 + 0)) := rfl
  have hs80 : np_sum exampleDf = some 80 := by rw [hs]; norm_num
  have hm : np_mean exampleDf = some 40 := by
    rw [np_mean, hs80]
    show some ((80 : Rat) / ((2 : Nat) : Rat)) = some 40
    norm_num
  rw [calculate_metrics, if_neg (by decide)]
  rw [show exampleAnalyzer.df = exampleDf from rfl, hs80, hm, hmp]
  rfl

/-- Claim C1: on every non-empty Dataset (whose totals are all numeric),
`calculate_metrics` stores and returns the snapshot whose `Total Sales`
is the sum of the totals, whose `Average Sale Value` is their arithmetic
mean, and whose `Most Popular Product` maximises the quantity sum over
all products, ties broken by first position in the sorted grouping order;
in particular the spec's two-row example yields total 80, average 40 and
most popular product P2. -/
theorem claim_C1 :
    (∀ a : RetailAnalyzer, a.df ≠ [] → (∀ r ∈ a.df, r.total.isSome = true) →
      ∃ p, most_popular_product a.df = some p ∧
        calculate_metrics a =
          ({ a with metrics := (Snapshot.snap (some (totalsSum a.df))
              (some (totalsSum a.df / (a.df.length : Rat))) (some p)) },
           Snapshot.snap (some (totalsSum a.df))
              (some (totalsSum a.df / (a.df.length : Rat))) (some p)) ∧
        (∀ q ∈ a.df.map (fun r => r.product), qtySum a.df q ≤ qtySum a.df p) ∧
        ∃ l1 l2, groupOrder a.df = l1 ++ p :: l2 ∧
          (∀ q ∈ l1, qtySum a.df q < qtySum a.df p) ∧
          (∀ q ∈ l2, qtySum a.df q ≤ qtySum a.df p)) ∧
    calculate_metrics exampleAnalyzer =
      ({ df := exampleDf, metrics := exampleSnap }, exampleSnap) :=
  ⟨calc_metrics_nonempty, example_metrics⟩

/-- Claim C1, witnessed on the spec's two-row example dataset. -/
theorem claim_C1_witness :
    ∃ p, most_popular_product exampleAnalyzer.df = some p ∧
      calculate_metrics exampleAnalyzer =
        ({ exampleAnalyzer with metrics := (Snapshot.snap (some (totalsSum exampleAnalyzer.df))
            (some (totalsSum exampleAnalyzer.df / (exampleAnalyzer.df.length : Rat))) (some p)) },
         Snapshot.snap (some (totalsSum exampleAnalyzer.df))
            (some (totalsSum exampleAnalyzer.df / (exampleAnalyzer.df.length : Rat))) (some p)) ∧
      (∀ q ∈ exampleAnalyzer.df.map (fun r => r.product),
        qtySum exampleAnalyzer.df q ≤ qtySum exampleAnalyzer.df p) ∧
      ∃ l1 l2, groupOrder exampleAnalyzer.df = l1 ++ p :: l2 ∧
        (∀ q ∈ l1, qtySum exampleAnalyzer.df q < qtySum exampleAnalyzer.df p) ∧
        (∀ q ∈ l2, qtySum exampleAnalyzer.df q ≤ qtySum exampleAnalyzer.df p) :=
  claim_C1.1 exampleAnalyzer (by decide) (by decide)

/-- Claim C2: when the header has all required columns, the Dataset after
`load_data` is exactly the row-wise cleaning of the input rows, and a row
is retained if and only if its five required cells are non-null and its
`Date`, `Price` and `Quantity Sold` cells parse; failing rows are
dropped, never kept with substituted values. -/
theorem claim_C2 (tbl : RawTable) (a : RetailAnalyzer)
    (hcols : ∀ c ∈ requiredColumns, c ∈ tbl.header) :
    (load_data true true tbl a).1.df = tbl.rows.filterMap (parseRow tbl.header) ∧
    (load_data true true tbl a).2 = true ∧
    ∀ r : RawRow, (parseRow tbl.header r).isSome = true ↔
      ((getCell r "Date").isSome = true ∧ (getCell r "Product").isSome = true ∧
       (getCell r "Category").isSome = true ∧ (getCell r "Price").isSome = true ∧
       (getCell r "Quantity Sold").isSome = true ∧
       ((getCell r "Date").bind parseDate).isSome = true ∧
       ((getCell r "Price").bind parseNum).isSome = true ∧
       ((getCell r "Quantity Sold").bind parseNum).isSome = true) := by
  rw [load_ok tbl a hcols]
  exact ⟨rfl, rfl, fun r => parseRow_some_iff tbl.header r⟩

/-- Claim C2, witnessed on a four-row table of which only the first row is
fully valid. -/
theorem claim_C2_witness :
    (∀ c ∈ requiredColumns, c ∈ exTable.header) ∧
    ((load_data true true exTable emptyAnalyzer).1.df =
        exTable.rows.filterMap (parseRow exTable.header) ∧
     (load_data true true exTable emptyAnalyzer).2 = true ∧
     ∀ r : RawRow, (parseRow exTable.header r).isSome = true ↔
       ((getCell r "Date").isSome = true ∧ (getCell r "Product").isSome = true ∧
        (getCell r "Category").isSome = true ∧ (getCell r "Price").isSome = true ∧
        (getCell r "Quantity Sold").isSome = true ∧
        ((getCell r "Date").bind parseDate).isSome = true ∧
        ((getCell r "Price").bind parseNum).isSome = true ∧
        ((getCell r "Quantity Sold").bind parseNum).isSome = true)) :=
  ⟨by decide, claim_C2 exTable emptyAnalyzer (by decide)⟩

/-- Claim C3 counterexample: a `load_data` call that fails the path check
(non-existent file) reports failure but leaves the session's previously
loaded, non-empty Dataset in place — the Dataset is not reset to empty on
this failure path, contradicting the claim. -/
theorem claim_C3_cex :
    loadedAnalyzer.df ≠ [] ∧
    load_data false true exTable loadedAnalyzer = (loadedAnalyzer, false) ∧
    (load_data false true exTable loadedAnalyzer).1.df ≠ [] :=
  ⟨by decide, rfl, by decide⟩

/-- Claim C3 as amended: a `load_data` call failing the path or extension
check reports failure and leaves the Dataset unchanged (so a Dataset from
a previous successful load is retained), while a call failing the schema
check reports failure and resets the Dataset to empty. -/
theorem claim_C3 (fe csv : Bool) (tbl : RawTable) (a : RetailAnalyzer) :
    ((fe && csv) = false → load_data fe csv tbl a = (a, false)) ∧
    ((∃ c ∈ requiredColumns, c ∉ tbl.header) →
      load_data true true tbl a = ({ a with df := [] }, false)) :=
  ⟨load_badPath fe csv tbl a, load_missingCols tbl a⟩

/-- Claim C3 as amended, witnessed on a bad-path call and on a call whose
table lacks the `Price` column, both against a loaded session. -/
theorem claim_C3_witness :
    load_data false true exTable loadedAnalyzer = (loadedAnalyzer, false) ∧
    load_data true true tblMissingPrice loadedAnalyzer =
      ({ loadedAnalyzer with df := [] }, false) :=
  ⟨(claim_C3 false true exTable loadedAnalyzer).1 (by decide),
   (claim_C3 true true tblMissingPrice loadedAnalyzer).2 ⟨"Price", by decide, by decide⟩⟩

/-- Claim C4 counterexample: a supplied empty-string category is not
matched by case-insensitive equality (which would select no record of the
one-record dataset) but is treated as no constraint: the full dataset
comes back, contradicting the claim for the supplied argument `""`. -/
theorem claim_C4_cex :
    filter_data [exR1] (some "") none none = .ok [exR1] ∧
    lowerEq exR1.category "" = false ∧
    [exR1].filter (fun r => lowerEq r.category "") = [] :=
  ⟨rfl, by decide, by decide⟩

/-- Claim C4 as amended: `filter_data` equals the one-pass filter that
keeps, in original order, exactly the records satisfying all supplied
predicates, where an omitted argument and a supplied empty string both
impose no constraint, the category predicate is case-insensitive
equality, the date bounds are inclusive, a non-empty unparseable bound is
an error, and an empty dataset returns empty immediately. -/
theorem claim_C4 (df : List Record) (cat sd ed : Option String) :
    filter_data df cat sd ed = filter_spec df cat sd ed :=
  filterData_eq_spec df cat sd ed

/-- Claim C5 counterexample: with a loaded session, menu choice 3 with an
unparseable start date crashes the process (the exception from
`pd.to_datetime` is uncaught in `main`), contradicting the claim that the
failure does not terminate the session. -/
theorem claim_C5_cex :
    menu_filter_step loadedAnalyzer none (some "not-a-date") none =
      (loadedAnalyzer, .crashed) ∧
    parseDate "not-a-date" = none :=
  ⟨rfl, by decide⟩

/-- Claim C5 as amended: on a non-empty Dataset, a non-empty date-bound
string that does not parse makes `filter_data` raise (rather than
silently matching nothing) and the session state is not modified, but the
error is an uncaught exception: it terminates the menu loop. -/
theorem claim_C5 (a : RetailAnalyzer) (cat sd ed : Option String)
    (hne : a.df ≠ []) (hbad : (badBound sd || badBound ed) = true) :
    filter_data a.df cat sd ed = .raised ∧
    menu_filter_step a cat sd ed = (a, .crashed) := by
  have h := filterData_raised cat hne hbad
  exact ⟨h, menu_crash hne h⟩

/-- Claim C5 as amended, witnessed on a loaded session and the start date
string `not-a-date`. -/
theorem claim_C5_witness :
    loadedAnalyzer.df ≠ [] ∧
    (badBound (some "not-a-date") || badBound none) = true ∧
    (filter_data loadedAnalyzer.df none (some "not-a-date") none = .raised ∧
     menu_filter_step loadedAnalyzer none (some "not-a-date") none =
       (loadedAnalyzer, .crashed)) :=
  ⟨by decide, by decide,
   claim_C5 loadedAnalyzer none (some "not-a-date") none (by decide) (by decide)⟩

/-- Claim C6: when the input header has no `Total Sales` column, every
record retained by `load_data` has its total equal to its price times its
quantity. -/
theorem claim_C6 (tbl : RawTable) (a : RetailAnalyzer)
    (hno : "Total Sales" ∉ tbl.header) :
    ∀ rec ∈ (load_data true true tbl a).1.df,
      rec.total = some (rec.price * rec.quantity) := by
  intro rec hrec
  by_cases hcols : ∀ c ∈ requiredColumns, c ∈ tbl.header
  · rw [load_ok tbl a hcols] at hrec
    obtain ⟨raw, hraw, hps⟩ := List.mem_filterMap.mp hrec
    obtain ⟨ds, ps, cs, prs, qs, d, pr, q, _, _, _, _, _, _, _, _, heq⟩ :=
      parseRow_eq_some hps
    subst heq
    simp [hno]
  · push_neg at hcols
    rw [load_missingCols tbl a hcols] at hrec
    exact absurd hrec (List.not_mem_nil _)

/-- Claim C6, witnessed on the first retained record of a table that has
no `Total Sales` column. -/
theorem claim_C6_witness :
    ("Total Sales" ∉ exTable.header) ∧
    derivedRec.total = some (derivedRec.price * derivedRec.quantity) :=
  ⟨by decide, claim_C6 exTable emptyAnalyzer (by decide) derivedRec (List.Mem.head _)⟩

/-- Claim C7: when the header lacks a required column, `load_data`
reports failure and the session's Dataset becomes empty. -/
theorem claim_C7 (tbl : RawTable) (a : RetailAnalyzer)
    (h : ∃ c ∈ requiredColumns, c ∉ tbl.header) :
    load_data true true tbl a = ({ a with df := [] }, false) ∧
    (load_data true true tbl a).1.df = [] := by
  have hl := load_missingCols tbl a h
  exact ⟨hl, by rw [hl]⟩

/-- Claim C7, witnessed on a table lacking the `Price` column, loaded into
a session that previously held data. -/
theorem claim_C7_witness :
    load_data true true tblMissingPrice loadedAnalyzer =
      ({ loadedAnalyzer with df := [] }, false) ∧
    (load_data true true tblMissingPrice loadedAnalyzer).1.df = [] :=
  claim_C7 tblMissingPrice loadedAnalyzer ⟨"Price", by decide, by decide⟩

/-- Claim C8: on an empty Dataset, `calculate_metrics` returns the empty
snapshot without computing anything, leaving the session unchanged and
raising no error. -/
theorem claim_C8 (a : RetailAnalyzer) (h : a.df = []) :
    calculate_metrics a = (a, Snapshot.empty) := by
  rw [calculate_metrics, if_pos (by simp [List.isEmpty_iff, h])]

/-- Claim C8, witnessed on a session whose Dataset is empty while a stale
snapshot is stored. -/
theorem claim_C8_witness :
    calculate_metrics staleAnalyzer = (staleAnalyzer, Snapshot.empty) :=
  claim_C8 staleAnalyzer rfl

/-- Claim C9 counterexample: `load_data` succeeds on a table whose one row
has price `-5` and quantity `-2.5`, and retains that record: its price
and quantity are negative and its quantity is not an integer, so retained
records are not guaranteed non-negative or integral. -/
theorem claim_C9_cex :
    (load_data true true tblSupplied emptyAnalyzer).2 = true ∧
    (load_data true true tblSupplied emptyAnalyzer).1.df = [recNeg] ∧
    recNeg.price < 0 ∧ recNeg.quantity < 0 ∧ recNeg.quantity.den ≠ 1 :=
  ⟨by decide, by decide, by decide, by decide, by decide⟩

/-- Claim C9 as amended: every record retained after a successful load
carries exactly the numeric values parsed from its `Price` and
`Quantity Sold` cells; no sign or integrality restriction is enforced, so
negative or fractional values are retained as they stand. -/
theorem claim_C9 (tbl : RawTable) (a : RetailAnalyzer) (rec : Record)
    (h : rec ∈ (load_data true true tbl a).1.df) :
    ∃ r ∈ tbl.rows,
      (∃ s, getCell r "Price" = some s ∧ parseNum s = some rec.price) ∧
      (∃ s, getCell r "Quantity Sold" = some s ∧ parseNum s = some rec.quantity) := by
  by_cases hcols : ∀ c ∈ requiredColumns, c ∈ tbl.header
  · rw [load_ok tbl a hcols] at h
    obtain ⟨raw, hraw, hps⟩ := List.mem_filterMap.mp h
    obtain ⟨ds, ps, cs, prs, qs, d, pr, q, hD, hP, hC, hPr, hQ, hd, hpr, hq, heq⟩ :=
      parseRow_eq_some hps
    subst heq
    exact ⟨raw, hraw, ⟨prs, hPr, hpr⟩, ⟨qs, hQ, hq⟩⟩
  · push_neg at hcols
    rw [load_missingCols tbl a hcols] at h
    exact absurd h (List.not_mem_nil _)

/-- Claim C9 as amended, witnessed on the record with negative price and
negative fractional quantity that `load_data` retains. -/
theorem claim_C9_witness :
    recNeg ∈ (load_data true true tblSupplied emptyAnalyzer).1.df ∧
    ∃ r ∈ tblSupplied.rows,
      (∃ s, getCell r "Price" = some s ∧ parseNum s = some recNeg.price) ∧
      (∃ s, getCell r "Quantity Sold" = some s ∧ parseNum s = some recNeg.quantity) :=
  ⟨by decide, claim_C9 tblSupplied emptyAnalyzer recNeg (by decide)⟩

/-- Claim C10: `calculate_metrics` on an empty Dataset returns the empty
snapshot while leaving the stored metrics field (and the whole session)
unchanged, and a session whose Dataset was replaced by a non-empty one
still displays its stored, possibly stale snapshot. -/
theorem claim_C10 (a b : RetailAnalyzer) (ha : a.df = []) (hb : b.df ≠ [])
    (hbm : b.metrics ≠ Snapshot.empty) :
    calculate_metrics a = (a, Snapshot.empty) ∧
    (calculate_metrics a).1.metrics = a.metrics ∧
    display_summary b = (b, some b.metrics) := by
  have h8 : calculate_metrics a = (a, Snapshot.empty) := by
    rw [calculate_metrics, if_pos (by simp [List.isEmpty_iff, ha])]
  refine ⟨h8, by rw [h8], ?_⟩
  rw [display_summary, if_neg (by simp [List.isEmpty_iff, hb]), if_neg hbm]

/-- Claim C10, witnessed on an emptied session with a stored snapshot and
on a loaded session with a stale stored snapshot. -/
theorem claim_C10_witness :
    calculate_metrics staleAnalyzer = (staleAnalyzer, Snapshot.empty) ∧
    (calculate_metrics staleAnalyzer).1.metrics = staleAnalyzer.metrics ∧
    display_summary loadedAnalyzer = (loadedAnalyzer, some loadedAnalyzer.metrics) :=
  claim_C10 staleAnalyzer loadedAnalyzer rfl (by decide) (by decide)
